import Mathlib

/-!
# The crash-reporting gateway `app::Sentry`

A shallow embedding of `src/app/sentry_wrapper.cpp`.

* `std::string` is `String`; a `const char*` consumer sees `c_str s`, the
  characters of `s` before its first NUL.
* The process state the gateway reads and writes is a `World`: the static
  `Sentry::m_dbdir`, the filesystem, the log of filesystem primitives that
  were invoked, and the state of the crash client (the sentry library).
* Functions of other libraries (`base::…` of laf, `sentry_…`) and of files of
  the repository outside this source file (`ResourceFinder`, `get_app_version`)
  are parameters (`Base`, `Build`, `Env`) or small models of their documented
  contract; every method of `Sentry` is translated statement by statement.
-/

namespace app

/-! ## Strings -/

/-- The NUL character, which ends a C string. -/
def NUL : Char := Char.ofNat 0

/-- What a `const char*` consumer reads from `s.c_str()`: the characters of
`s` up to, and not including, its first NUL. -/
def c_str (s : String) : String := ⟨s.data.takeWhile (fun c => c != NUL)⟩

/-- A `std::wstring`, as its sequence of `wchar_t` code units. -/
abbrev std_wstring := List Nat

/-- What a `const wchar_t*` consumer reads from `s.c_str()`. -/
def wc_str (s : std_wstring) : std_wstring := s.takeWhile (fun c => c != 0)

/-- A value of type `const char*`: a NUL-terminated character sequence, so its
contents hold no NUL. -/
structure c_string where
  chars : String
  nul_free : NUL ∉ chars.data

/-! ## The filesystem and the `base` library -/

/-- The filesystem state, as far as `base::is_file` and `base::list_files`
observe it. -/
structure FileSystem where
  is_file : String → Bool
  list_files : String → List String

/-- The pure string functions of `base/fs.h` and `base/string.h` that the
gateway uses; they are parameters of the development. -/
structure Base where
  join_path : String → String → String
  get_file_path : String → String
  get_file_extension : String → String
  from_utf8 : String → std_wstring

/-- One invocation of a `base` primitive by `areThereCrashesToReport`. Every
one of them is a query. -/
inductive FsCall where
  | is_file (path : String)
  | list_files (path : String)
  | get_file_extension (path : String)
  deriving DecidableEq, Repr

/-! ## The crash client (sentry library) -/

/-- The enum `sentry_user_consent_t` of `sentry.h`. -/
inductive sentry_user_consent_t where
  | SENTRY_USER_CONSENT_UNKNOWN
  | SENTRY_USER_CONSENT_GIVEN
  | SENTRY_USER_CONSENT_REVOKED
  deriving DecidableEq, Repr

open sentry_user_consent_t

/-- A path option of the client, set from a narrow or from a wide C string. -/
inductive sentry_path_t where
  | narrow (p : String)
  | wide (p : std_wstring)
  deriving DecidableEq, Repr

/-- Modelled from the spec: the client configuration `sentry_options_t` of
`sentry.h`, with the six settings of spec section 4.1 (a)-(f). -/
structure sentry_options_t where
  dsn : Option String
  release : Option String
  debug : Int
  handler_path : Option sentry_path_t
  database_path : Option sentry_path_t
  require_user_consent : Int
  deriving DecidableEq, Repr

/-- Modelled from the spec: `sentry_options_new()`, a configuration with
nothing set. -/
def sentry_options_new : sentry_options_t :=
  { dsn := none, release := none, debug := 0, handler_path := none,
    database_path := none, require_user_consent := 0 }

/-- Modelled from the spec: `sentry_options_set_dsn(opts, dsn)`. -/
def sentry_options_set_dsn (o : sentry_options_t) (dsn : String) : sentry_options_t :=
  { o with dsn := some dsn }

/-- Modelled from the spec: `sentry_options_set_release(opts, release)`. -/
def sentry_options_set_release (o : sentry_options_t) (release : String) : sentry_options_t :=
  { o with release := some release }

/-- Modelled from the spec: `sentry_options_set_debug(opts, debug)`. -/
def sentry_options_set_debug (o : sentry_options_t) (debug : Int) : sentry_options_t :=
  { o with debug := debug }

/-- Modelled from the spec: `sentry_options_set_handler_path(opts, path)`. -/
def sentry_options_set_handler_path (o : sentry_options_t) (path : String) : sentry_options_t :=
  { o with handler_path := some (.narrow path) }

/-- Modelled from the spec: `sentry_options_set_handler_pathw(opts, path)`. -/
def sentry_options_set_handler_pathw (o : sentry_options_t) (path : std_wstring) :
    sentry_options_t :=
  { o with handler_path := some (.wide path) }

/-- Modelled from the spec: `sentry_options_set_database_path(opts, path)`. -/
def sentry_options_set_database_path (o : sentry_options_t) (path : String) : sentry_options_t :=
  { o with database_path := some (.narrow path) }

/-- Modelled from the spec: `sentry_options_set_database_pathw(opts, path)`. -/
def sentry_options_set_database_pathw (o : sentry_options_t) (path : std_wstring) :
    sentry_options_t :=
  { o with database_path := some (.wide path) }

/-- Modelled from the spec: `sentry_options_set_require_user_consent(opts, val)`. -/
def sentry_options_set_require_user_consent (o : sentry_options_t) (val : Int) :
    sentry_options_t :=
  { o with require_user_consent := val }

/-- Modelled from the spec: the values `sentry_value_t` that the gateway
builds: null, a string, or an object of named fields. -/
inductive sentry_value_t where
  | null
  | string (s : String)
  | object (fields : List (String × sentry_value_t))

/-- Modelled from the spec: `sentry_value_new_object()`, an object with no
field. -/
def sentry_value_new_object : sentry_value_t := .object []

/-- Modelled from the spec: `sentry_value_new_string(str)` for a C string. -/
def sentry_value_new_string (str : String) : sentry_value_t := .string str

/-- Replace the value of the first field named `k`, or append the field. -/
def set_field (k : String) (v : sentry_value_t) :
    List (String × sentry_value_t) → List (String × sentry_value_t)
  | [] => [(k, v)]
  | (k1, v1) :: rest =>
    if k1 == k then (k, v) :: rest else (k1, v1) :: set_field k v rest

/-- Modelled from the spec: `sentry_value_set_by_key(value, k, v)`; a value
that is no object is left as it is. -/
def sentry_value_set_by_key (value : sentry_value_t) (k : String) (v : sentry_value_t) :
    sentry_value_t :=
  match value with
  | .object fields => .object (set_field k v fields)
  | other => other

/-- Modelled from the spec: the state of the crash client: the tri-state
consent flag and the active user it owns, with the record of every
`sentry_init` call (the options handed over and the code returned) and the
number of `sentry_close` calls. -/
structure CrashClient where
  user_consent : sentry_user_consent_t
  user : sentry_value_t
  init_calls : List (sentry_options_t × Int)
  close_calls : Nat

/-! ## Process state -/

/-- The process state around the gateway. -/
structure World where
  -- the static `Sentry::m_dbdir`
  m_dbdir : String
  fs : FileSystem
  -- the `base` queries invoked so far, oldest first
  fs_calls : List FsCall
  client : CrashClient

/-- Modelled from the spec: the members of a `Sentry` instance declared in
`app/sentry_wrapper.h`: the flag `m_init`. -/
structure Sentry where
  m_init : Bool
  deriving DecidableEq, Repr

/-- Modelled from the spec: a newly constructed gateway of
`app/sentry_wrapper.h` is in the uninitialized state. -/
def Sentry.new : Sentry := { m_init := false }

/-- The definition `std::string Sentry::m_dbdir;`: the value of the static
member when the process starts, the empty string. -/
def Sentry.m_dbdir : String := ""

/-- Record the invocation of a `base` primitive. -/
def World.call (w : World) (c : FsCall) : World :=
  { w with fs_calls := w.fs_calls ++ [c] }

/-- Invocation of `base::is_file(path)`. -/
def is_file (path : String) (w : World) : Bool × World :=
  (w.fs.is_file path, w.call (.is_file path))

/-- Invocation of `base::list_files(path)`. -/
def list_files (path : String) (w : World) : List String × World :=
  (w.fs.list_files path, w.call (.list_files path))

/-- Invocation of `base::get_file_extension(path)`. -/
def get_file_extension (b : Base) (path : String) (w : World) : String × World :=
  (b.get_file_extension path, w.call (.get_file_extension path))

/-! ## `Sentry::areThereCrashesToReport` -/

/-- The loop `for (auto f : files) if (get_file_extension(f) == "dmp") return true;`
of `areThereCrashesToReport`: the first component tells whether the loop
returned `true`. -/
def dmp_loop (b : Base) : List String → World → Bool × World
  | [], w => (false, w)
  | f :: rest, w =>
    let r := get_file_extension b f w
    if r.1 == "dmp" then (true, r.2) else dmp_loop b rest r.2

/-- `Sentry::areThereCrashesToReport()`. -/
def Sentry.areThereCrashesToReport (b : Base) (w : World) : Bool × World :=
  if w.m_dbdir.isEmpty then (false, w)
  else
    let r1 := is_file (b.join_path w.m_dbdir "last_crash") w
    if r1.1 then (true, r1.2)
    else
      let l2 := list_files (b.join_path r1.2.m_dbdir "completed") r1.2
      let r2 := dmp_loop b l2.1 l2.2
      if r2.1 then (true, r2.2)
      else
        let l3 := list_files (b.join_path r2.2.m_dbdir "reports") r2.2
        let r3 := dmp_loop b l3.1 l3.2
        if r3.1 then (true, r3.2)
        else (false, r3.2)

/-! ## Build configuration and runtime environment -/

/-- The compile-time configuration: the preprocessor symbols the source file
tests or expands. -/
structure Build where
  _DEBUG : Bool
  LAF_WINDOWS : Bool
  SENTRY_DNS : String

/-- Modelled from the spec: the `ResourceFinder` of `app/resource_finder.h`,
as the list of user-directory entries it was asked to include. -/
structure ResourceFinder where
  userDirs : List String
  deriving DecidableEq, Repr

/-- Modelled from the spec: `ResourceFinder::includeUserDir(filename)`. -/
def ResourceFinder.includeUserDir (rf : ResourceFinder) (filename : String) : ResourceFinder :=
  { userDirs := rf.userDirs ++ [filename] }

/-- The runtime environment of `init`: the functions it calls whose code is
not in this source file. `getFirstOrCreateDefault` and `sentry_start` may
change the filesystem in any way; `sentry_start` yields the code that
`sentry_init` returns and the consent state the started client holds. -/
structure Env where
  base : Base
  -- `get_app_version()` of `ver/info.h`, a `const char*`
  get_app_version : c_string
  -- `base::get_app_path()`
  get_app_path : String
  -- `ResourceFinder::getFirstOrCreateDefault()`
  getFirstOrCreateDefault : ResourceFinder → FileSystem → String × FileSystem
  sentry_start : sentry_options_t → FileSystem → sentry_user_consent_t →
    Int × FileSystem × sentry_user_consent_t

/-! ## Calls into the crash client -/

/-- Modelled from the spec: `sentry_init(options)` starts the client; the
call and its return code are recorded. -/
def sentry_init (env : Env) (options : sentry_options_t) (w : World) : Int × World :=
  let r := env.sentry_start options w.fs w.client.user_consent
  (r.1, { w with
    fs := r.2.1
    client := { w.client with
      user_consent := r.2.2
      init_calls := w.client.init_calls ++ [(options, r.1)] } })

/-- Modelled from the spec: `sentry_close()`; the call is counted. -/
def sentry_close (w : World) : World :=
  { w with client := { w.client with close_calls := w.client.close_calls + 1 } }

/-- Modelled from the spec: `sentry_set_user(user)` makes `user` the active
user of the client. -/
def sentry_set_user (user : sentry_value_t) (w : World) : World :=
  { w with client := { w.client with user := user } }

/-- Modelled from the spec: `sentry_user_consent_get()` reads the consent state
of the client. -/
def sentry_user_consent_get (w : World) : sentry_user_consent_t :=
  w.client.user_consent

/-- Modelled from the spec: `sentry_user_consent_give()` moves the client to
the given state. -/
def sentry_user_consent_give (w : World) : World :=
  { w with client := { w.client with user_consent := SENTRY_USER_CONSENT_GIVEN } }

/-- Modelled from the spec: `sentry_user_consent_revoke()` moves the client to
the revoked state. -/
def sentry_user_consent_revoke (w : World) : World :=
  { w with client := { w.client with user_consent := SENTRY_USER_CONSENT_REVOKED } }

/-! ## The methods of `Sentry` -/

/-- `Sentry::setupDirs(options)`. -/
def Sentry.setupDirs (bld : Build) (env : Env) (options : sentry_options_t) (w : World) :
    sentry_options_t × World :=
  let handler := env.base.join_path (env.base.get_file_path env.get_app_path)
    ("aseprite_crashpad_handler" ++ (if bld.LAF_WINDOWS then ".exe" else ""))
  let rf : ResourceFinder := { userDirs := [] }
  let rf := rf.includeUserDir "crashdb"
  let r := env.getFirstOrCreateDefault rf w.fs
  let dir := r.1
  let w := { w with fs := r.2 }
  let options :=
    if bld.LAF_WINDOWS then
      let options := sentry_options_set_handler_pathw options
        (wc_str (env.base.from_utf8 handler))
      sentry_options_set_database_pathw options (wc_str (env.base.from_utf8 dir))
    else
      let options := sentry_options_set_handler_path options (c_str handler)
      sentry_options_set_database_path options (c_str dir)
  (options, { w with m_dbdir := dir })

/-- `Sentry::init()`. -/
def Sentry.init (bld : Build) (env : Env) (self : Sentry) (w : World) : Sentry × World :=
  let options := sentry_options_new
  let options := sentry_options_set_dsn options (c_str bld.SENTRY_DNS)
  let release := "aseprite@"
  let release := release ++ env.get_app_version.chars
  let options := sentry_options_set_release options (c_str release)
  let options := if bld._DEBUG then sentry_options_set_debug options 1 else options
  let r := Sentry.setupDirs bld env options w
  let options := sentry_options_set_require_user_consent r.1 1
  let s := sentry_init env options r.2
  if s.1 == 0 then ({ self with m_init := true }, s.2) else (self, s.2)

/-- The destructor `Sentry::~Sentry()`. -/
def Sentry.destructor (self : Sentry) (w : World) : World :=
  if self.m_init then sentry_close w else w

/-- `Sentry::setUserID(uuid)`. -/
def Sentry.setUserID (uuid : String) (w : World) : World :=
  let user := sentry_value_new_object
  let user := sentry_value_set_by_key user "id" (sentry_value_new_string (c_str uuid))
  sentry_set_user user w

/-- `Sentry::requireConsent()`. -/
def Sentry.requireConsent (w : World) : Bool :=
  sentry_user_consent_get w != SENTRY_USER_CONSENT_GIVEN

/-- `Sentry::consentGiven()`. -/
def Sentry.consentGiven (w : World) : Bool :=
  sentry_user_consent_get w == SENTRY_USER_CONSENT_GIVEN

/-- `Sentry::giveConsent()`. -/
def Sentry.giveConsent (w : World) : World :=
  sentry_user_consent_give w

/-- `Sentry::revokeConsent()`. -/
def Sentry.revokeConsent (w : World) : World :=
  sentry_user_consent_revoke w

/-- The life of a gateway up to its destruction: `init()` called once per
environment of the list, in order. -/
def init_all (bld : Build) : List Env → Sentry → World → Sentry × World
  | [], self, w => (self, w)
  | env :: envs, self, w =>
    let r := Sentry.init bld env self w
    init_all bld envs r.1 r.2

/-- The return codes of the `sentry_init` calls made between the process
states `before` and `after`, oldest first. -/
def init_codes (before after : World) : List Int :=
  (after.client.init_calls.drop before.client.init_calls.length).map Prod.snd

/-- The directory that `setupDirs` resolves in environment `env` over the
filesystem `fs`: what `getFirstOrCreateDefault` returns for a finder that
includes the user directory `crashdb`. -/
def resolved_dir (env : Env) (fs : FileSystem) : String :=
  (env.getFirstOrCreateDefault (ResourceFinder.includeUserDir ⟨[]⟩ "crashdb") fs).1

/-! ## Example inputs -/

/-- An example `Base`: paths joined with a slash, the extension being what
follows the last dot. -/
def exampleBase : Base where
  join_path := fun path file => path ++ "/" ++ file
  get_file_path := fun path => path
  get_file_extension := fun path =>
    let cs := path.data.reverse
    if cs.contains '.' then ⟨(cs.takeWhile (fun c => c != '.')).reverse⟩ else ""
  from_utf8 := fun s => s.data.map Char.toNat

/-- A crash client in the unknown consent state, never started. -/
def exampleClient : CrashClient :=
  { user_consent := SENTRY_USER_CONSENT_UNKNOWN, user := .null, init_calls := [],
    close_calls := 0 }

/-- A database directory `/db` that holds `reports/report2.dmp` only. -/
def reportsOnlyWorld : World :=
  { m_dbdir := "/db"
    fs := { is_file := fun _ => false
            list_files := fun path => if path == "/db/reports" then ["report2.dmp"] else [] }
    fs_calls := []
    client := exampleClient }

/-- A process in which the database directory was never set, over a
filesystem where every path is a file and every listing has a dump. -/
def unsetDirWorld : World :=
  { m_dbdir := Sentry.m_dbdir
    fs := { is_file := fun _ => true, list_files := fun _ => ["a.dmp"] }
    fs_calls := []
    client := exampleClient }

/-- An environment in which the crash client fails to start: `sentry_init`
returns 1; the database directory resolves to `/db`, and neither call changes
the filesystem. -/
def failingEnv : Env :=
  { base := exampleBase
    get_app_version := ⟨"1.3", by decide⟩
    get_app_path := "/opt/aseprite"
    getFirstOrCreateDefault := fun _ fs => ("/db", fs)
    sentry_start := fun _ fs consent => (1, fs, consent) }

/-- A build that is neither a debug nor a Windows build. -/
def exampleBuild : Build :=
  { _DEBUG := false, LAF_WINDOWS := false, SENTRY_DNS := "https://key@sentry.example/1" }

/-- A user identifier with a NUL in the middle: `x`, NUL, `y`. -/
def nulID : String := ⟨['x', NUL, 'y']⟩

/-! ## Lemmas on the detection query -/

/-- The loop returns `true` exactly when some listed entry has extension
`dmp`. -/
theorem dmp_loop_fst (b : Base) (l : List String) (w : World) :
    (dmp_loop b l w).1 = l.any (fun f => b.get_file_extension f == "dmp") := by
  induction l generalizing w with
  | nil => rfl
  | cons f rest ih =>
    simp only [dmp_loop, get_file_extension, List.any_cons]
    by_cases h : (b.get_file_extension f == "dmp") = true
    · simp [h]
    · simp only [h, Bool.false_eq_true, if_false]
      rw [ih]
      simp at h
      simp [h]

/-- The loop leaves the process state as it is, apart from the calls it
records. -/
theorem dmp_loop_snd (b : Base) (l : List String) (w : World) :
    ∃ q, (dmp_loop b l w).2 = { w with fs_calls := w.fs_calls ++ q } := by
  induction l generalizing w with
  | nil => exact ⟨[], by simp [dmp_loop]⟩
  | cons f rest ih =>
    simp only [dmp_loop, get_file_extension]
    by_cases h : (b.get_file_extension f == "dmp") = true
    · exact ⟨[.get_file_extension f], by simp [h, World.call]⟩
    · obtain ⟨q, hq⟩ := ih (w.call (.get_file_extension f))
      refine ⟨.get_file_extension f :: q, ?_⟩
      simp only [h, Bool.false_eq_true, if_false, hq]
      simp [World.call]

/-- Recording a call changes nothing but the record. -/
theorem call_snd (w : World) (c : FsCall) :
    ∃ q, w.call c = { w with fs_calls := w.fs_calls ++ q } :=
  ⟨[c], rfl⟩

/-- Changes that only add to the record of calls compose. -/
theorem snd_trans {w1 w2 w3 : World}
    (h12 : ∃ q, w2 = { w1 with fs_calls := w1.fs_calls ++ q })
    (h23 : ∃ q, w3 = { w2 with fs_calls := w2.fs_calls ++ q }) :
    ∃ q, w3 = { w1 with fs_calls := w1.fs_calls ++ q } := by
  obtain ⟨q1, rfl⟩ := h12
  obtain ⟨q2, rfl⟩ := h23
  exact ⟨q1 ++ q2, by simp⟩

/-- The query leaves the process state as it is, apart from the calls it
records. -/
theorem areThereCrashesToReport_snd (b : Base) (w : World) :
    ∃ q, (Sentry.areThereCrashesToReport b w).2 = { w with fs_calls := w.fs_calls ++ q } := by
  unfold Sentry.areThereCrashesToReport
  by_cases h0 : w.m_dbdir.isEmpty = true
  · exact ⟨[], by simp [h0]⟩
  · simp only [h0, Bool.false_eq_true, if_false, is_file, list_files]
    split
    · exact call_snd _ _
    · split
      · exact snd_trans (call_snd _ _) (snd_trans (call_snd _ _) (dmp_loop_snd _ _ _))
      · split
        · exact snd_trans (call_snd _ _) (snd_trans (call_snd _ _)
            (snd_trans (dmp_loop_snd _ _ _) (snd_trans (call_snd _ _) (dmp_loop_snd _ _ _))))
        · exact snd_trans (call_snd _ _) (snd_trans (call_snd _ _)
            (snd_trans (dmp_loop_snd _ _ _) (snd_trans (call_snd _ _) (dmp_loop_snd _ _ _))))

/-- The loop does not change `m_dbdir`. -/
theorem dmp_loop_m_dbdir (b : Base) (l : List String) (w : World) :
    (dmp_loop b l w).2.m_dbdir = w.m_dbdir := by
  obtain ⟨q, hq⟩ := dmp_loop_snd b l w
  rw [hq]

/-- The loop does not change the filesystem. -/
theorem dmp_loop_fs (b : Base) (l : List String) (w : World) :
    (dmp_loop b l w).2.fs = w.fs := by
  obtain ⟨q, hq⟩ := dmp_loop_snd b l w
  rw [hq]

/-- The value of the query over a non-empty database directory, as a boolean
expression over the filesystem. -/
theorem areThereCrashesToReport_fst (b : Base) (w : World) (h : w.m_dbdir.isEmpty = false) :
    (Sentry.areThereCrashesToReport b w).1 =
      (w.fs.is_file (b.join_path w.m_dbdir "last_crash") ||
        ((w.fs.list_files (b.join_path w.m_dbdir "completed")).any
            (fun f => b.get_file_extension f == "dmp") ||
          (w.fs.list_files (b.join_path w.m_dbdir "reports")).any
            (fun f => b.get_file_extension f == "dmp"))) := by
  unfold Sentry.areThereCrashesToReport
  simp only [h, Bool.false_eq_true, if_false, is_file, list_files, dmp_loop_fst, dmp_loop_fs,
    dmp_loop_m_dbdir, World.call]
  cases w.fs.is_file (b.join_path w.m_dbdir "last_crash") <;>
    cases (w.fs.list_files (b.join_path w.m_dbdir "completed")).any
      (fun f => b.get_file_extension f == "dmp") <;>
    cases (w.fs.list_files (b.join_path w.m_dbdir "reports")).any
      (fun f => b.get_file_extension f == "dmp") <;> simp

/-- The value of the query, the guard on an empty `m_dbdir` included. -/
theorem areThereCrashesToReport_val (b : Base) (w : World) :
    (Sentry.areThereCrashesToReport b w).1 =
      (!w.m_dbdir.isEmpty &&
        (w.fs.is_file (b.join_path w.m_dbdir "last_crash") ||
          ((w.fs.list_files (b.join_path w.m_dbdir "completed")).any
              (fun f => b.get_file_extension f == "dmp") ||
            (w.fs.list_files (b.join_path w.m_dbdir "reports")).any
              (fun f => b.get_file_extension f == "dmp")))) := by
  cases h : w.m_dbdir.isEmpty
  · rw [areThereCrashesToReport_fst b w h]
    simp
  · simp [Sentry.areThereCrashesToReport, h]

/-! ## The claims on the detection query -/

/-- C1: for a non-empty database directory `d` and any filesystem,
`areThereCrashesToReport()` returns true if and only if `join_path(d,
"last_crash")` is a file, or an entry listed in `join_path(d, "completed")`
has extension exactly `dmp`, or an entry listed in `join_path(d, "reports")`
has; in particular it returns false when `last_crash` is no file and both
listings are empty. -/
theorem areThereCrashesToReport_iff (b : Base) (w : World) (h : w.m_dbdir ≠ "") :
    ((Sentry.areThereCrashesToReport b w).1 = true ↔
      (w.fs.is_file (b.join_path w.m_dbdir "last_crash") = true ∨
        (∃ f ∈ w.fs.list_files (b.join_path w.m_dbdir "completed"),
          b.get_file_extension f = "dmp") ∨
        (∃ f ∈ w.fs.list_files (b.join_path w.m_dbdir "reports"),
          b.get_file_extension f = "dmp"))) ∧
    (w.fs.is_file (b.join_path w.m_dbdir "last_crash") = false →
      w.fs.list_files (b.join_path w.m_dbdir "completed") = [] →
      w.fs.list_files (b.join_path w.m_dbdir "reports") = [] →
      (Sentry.areThereCrashesToReport b w).1 = false) := by
  have h0 : w.m_dbdir.isEmpty = false := by
    cases hb : w.m_dbdir.isEmpty
    · rfl
    · exact absurd ((String.isEmpty_iff _).1 hb) h
  rw [areThereCrashesToReport_fst b w h0]
  constructor
  · simp [Bool.or_eq_true, List.any_eq_true]
  · intro h1 h2 h3
    simp [h1, h2, h3]

/-- C1 at a database directory holding `reports/report2.dmp` only: the query
returns true. -/
theorem areThereCrashesToReport_iff_witness :
    (Sentry.areThereCrashesToReport exampleBase reportsOnlyWorld).1 = true :=
  (areThereCrashesToReport_iff exampleBase reportsOnlyWorld (by decide)).1.2
    (Or.inr (Or.inr ⟨"report2.dmp", by decide, by decide⟩))

/-- C2: when `m_dbdir` is the empty string, `areThereCrashesToReport()` returns
false whatever the filesystem holds, and returns with the process state
untouched: no call of `is_file`, `list_files` or `get_file_extension` is
recorded. -/
theorem areThereCrashesToReport_unset (b : Base) (w : World) (h : w.m_dbdir = "") :
    (Sentry.areThereCrashesToReport b w).1 = false ∧
    (Sentry.areThereCrashesToReport b w).2 = w ∧
    (Sentry.areThereCrashesToReport b w).2.fs_calls = w.fs_calls := by
  have h0 : w.m_dbdir.isEmpty = true := (String.isEmpty_iff _).2 h
  simp [Sentry.areThereCrashesToReport, h0]

/-- C2 over a filesystem where every check would succeed: still false, and no
call is recorded. -/
theorem areThereCrashesToReport_unset_witness :
    (Sentry.areThereCrashesToReport exampleBase unsetDirWorld).1 = false ∧
    (Sentry.areThereCrashesToReport exampleBase unsetDirWorld).2.fs_calls = [] :=
  ⟨(areThereCrashesToReport_unset exampleBase unsetDirWorld rfl).1,
    (areThereCrashesToReport_unset exampleBase unsetDirWorld rfl).2.2⟩

/-- C9: `areThereCrashesToReport()` is a read-only query: whatever it returns,
the filesystem, `m_dbdir` and the crash client are afterwards what they were
before; the only change of the process state is the record of the `is_file`,
`list_files` and `get_file_extension` calls it made, added after the earlier
ones. -/
theorem areThereCrashesToReport_read_only (b : Base) (w : World) :
    (Sentry.areThereCrashesToReport b w).2.fs = w.fs ∧
    (Sentry.areThereCrashesToReport b w).2.m_dbdir = w.m_dbdir ∧
    (Sentry.areThereCrashesToReport b w).2.client = w.client ∧
    ∃ q : List FsCall,
      (Sentry.areThereCrashesToReport b w).2 = { w with fs_calls := w.fs_calls ++ q } := by
  obtain ⟨q, hq⟩ := areThereCrashesToReport_snd b w
  refine ⟨?_, ?_, ?_, q, hq⟩ <;> rw [hq]

/-! ## The claims on consent -/

/-- C3: in every consent state of the crash client, `consentGiven()` is true
exactly when the state is given, and `requireConsent()` is its negation, so
exactly one of the two is true; state by state: given yields
`consentGiven()` only, revoked and unknown yield `requireConsent()` only. -/
theorem consent_queries (w : World) :
    (Sentry.consentGiven w = true ↔ w.client.user_consent = SENTRY_USER_CONSENT_GIVEN) ∧
    Sentry.requireConsent w = !Sentry.consentGiven w ∧
    xor (Sentry.requireConsent w) (Sentry.consentGiven w) = true ∧
    (match w.client.user_consent with
      | SENTRY_USER_CONSENT_GIVEN =>
        Sentry.consentGiven w = true ∧ Sentry.requireConsent w = false
      | SENTRY_USER_CONSENT_REVOKED =>
        Sentry.consentGiven w = false ∧ Sentry.requireConsent w = true
      | SENTRY_USER_CONSENT_UNKNOWN =>
        Sentry.consentGiven w = false ∧ Sentry.requireConsent w = true) := by
  unfold Sentry.consentGiven Sentry.requireConsent sentry_user_consent_get
  cases w.client.user_consent <;> simp <;> decide

/-- C4: from any process state, `giveConsent()` followed by `revokeConsent()`
leaves the client in the revoked state: `consentGiven()` is then false and
`requireConsent()` true, and nothing but the consent state differs from the
state before the two calls. -/
theorem give_then_revoke (w : World) :
    (Sentry.revokeConsent (Sentry.giveConsent w)).client.user_consent =
      SENTRY_USER_CONSENT_REVOKED ∧
    Sentry.consentGiven (Sentry.revokeConsent (Sentry.giveConsent w)) = false ∧
    Sentry.requireConsent (Sentry.revokeConsent (Sentry.giveConsent w)) = true ∧
    Sentry.revokeConsent (Sentry.giveConsent w) =
      { w with client := { w.client with user_consent := SENTRY_USER_CONSENT_REVOKED } } := by
  refine ⟨rfl, ?_, ?_, rfl⟩
  · simp [Sentry.consentGiven, Sentry.revokeConsent, Sentry.giveConsent,
      sentry_user_consent_get, sentry_user_consent_revoke]
  · simp [Sentry.requireConsent, Sentry.revokeConsent, Sentry.giveConsent,
      sentry_user_consent_get, sentry_user_consent_revoke]

/-! ## Lemmas on `init` -/

/-- A string without NUL is read whole through `c_str`. -/
theorem c_str_of_nul_free (s : String) (h : NUL ∉ s.data) : c_str s = s := by
  unfold c_str
  have : s.data.takeWhile (fun c => c != NUL) = s.data := by
    rw [List.takeWhile_eq_self_iff]
    intro c hc
    simp only [bne_iff_ne, ne_eq]
    intro hcn
    exact h (hcn ▸ hc)
  rw [this]

/-- What one execution of `init` does: it calls `sentry_init` once, with
options `o` and return code `rc`, where `o` has the consent requirement set to
1, the release read from `"aseprite@"` followed by the version, and the
database path read from the resolved directory; `m_dbdir` becomes the resolved
directory, `m_init` is set when `rc` is 0 and kept otherwise, and
`sentry_close` is not called. -/
theorem init_spec (bld : Build) (env : Env) (self : Sentry) (w : World) :
    ∃ (o : sentry_options_t) (rc : Int) (w1 : World),
      Sentry.init bld env self w = (⟨self.m_init || rc == 0⟩, w1) ∧
      w1.client.init_calls = w.client.init_calls ++ [(o, rc)] ∧
      o.require_user_consent = 1 ∧
      o.release = some (c_str ("aseprite@" ++ env.get_app_version.chars)) ∧
      o.database_path = some
        (if bld.LAF_WINDOWS then .wide (wc_str (env.base.from_utf8 (resolved_dir env w.fs)))
         else .narrow (c_str (resolved_dir env w.fs))) ∧
      w1.m_dbdir = resolved_dir env w.fs ∧
      w1.client.close_calls = w.client.close_calls ∧
      w1.client.user = w.client.user ∧
      w1.fs_calls = w.fs_calls := by
  obtain ⟨dbg, win, dns⟩ := bld
  generalize hx : Sentry.init ⟨dbg, win, dns⟩ env self w = x
  unfold Sentry.init at hx
  lift_lets at hx
  extract_lets o1 o2 rel1 rel2 o3 o4 r o5 s at hx
  subst hx
  refine ⟨o5, s.1, s.2, ?_, rfl, rfl, ?_, ?_, rfl, rfl, rfl, rfl⟩
  · by_cases hrc : (s.1 == 0) = true
    · simp [hrc]
    · simp only [hrc, Bool.false_eq_true, if_false]
      cases self
      simp
  · cases dbg <;> cases win <;> rfl
  · cases dbg <;> cases win <;> rfl

/-- What a sequence of `init` calls does: one `sentry_init` call per `init`,
`m_init` set as soon as one of them returned 0, no `sentry_close`. -/
theorem init_all_spec (bld : Build) (envs : List Env) (self : Sentry) (w : World) :
    ∃ calls : List (sentry_options_t × Int),
      (init_all bld envs self w).2.client.init_calls = w.client.init_calls ++ calls ∧
      calls.length = envs.length ∧
      (init_all bld envs self w).1.m_init = (self.m_init || calls.any (fun c => c.2 == 0)) ∧
      (init_all bld envs self w).2.client.close_calls = w.client.close_calls := by
  induction envs generalizing self w with
  | nil => exact ⟨[], by simp [init_all]⟩
  | cons env envs ih =>
    obtain ⟨o, rc, w1, h1, hlog, -, -, -, -, hclose, -, -⟩ := init_spec bld env self w
    obtain ⟨calls, c1, c2, c3, c4⟩ := ih ⟨self.m_init || rc == 0⟩ w1
    refine ⟨(o, rc) :: calls, ?_, ?_, ?_, ?_⟩
    · simp only [init_all, h1]
      rw [c1, hlog]
      simp
    · simp [c2]
    · simp only [init_all, h1]
      rw [c3]
      simp [Bool.or_assoc]
    · simp only [init_all, h1]
      rw [c4, hclose]

/-- Looking for a return code 0 among the codes of the recorded calls. -/
theorem any_code_zero (calls : List (sentry_options_t × Int)) :
    (calls.map Prod.snd).any (fun rc => rc == 0) = calls.any (fun c => c.2 == 0) := by
  induction calls with
  | nil => rfl
  | cons c cs ih => simp only [List.map_cons, List.any_cons, ih]

/-! ## The claims on `init`, the destructor and `setUserID` -/

/-- C5: every execution of `init()`, in every build configuration and every
runtime environment, makes exactly one `sentry_init` call, and the options
handed to it have the require-user-consent flag equal to 1. -/
theorem init_requires_user_consent (bld : Build) (env : Env) (self : Sentry) (w : World) :
    ∃ (o : sentry_options_t) (rc : Int),
      (Sentry.init bld env self w).2.client.init_calls = w.client.init_calls ++ [(o, rc)] ∧
      o.require_user_consent = 1 := by
  obtain ⟨o, rc, w1, h1, hlog, hflag, -⟩ := init_spec bld env self w
  exact ⟨o, rc, by rw [h1]; exact hlog, hflag⟩

/-- C8: for every version `v` that `get_app_version()` returns, the release
that `init()` configures on the options handed to `sentry_init` is exactly
`"aseprite@"` followed by `v`. -/
theorem init_release (bld : Build) (env : Env) (self : Sentry) (w : World) :
    ∃ (o : sentry_options_t) (rc : Int),
      (Sentry.init bld env self w).2.client.init_calls = w.client.init_calls ++ [(o, rc)] ∧
      o.release = some ("aseprite@" ++ env.get_app_version.chars) := by
  obtain ⟨o, rc, w1, h1, hlog, -, hrel, -⟩ := init_spec bld env self w
  refine ⟨o, rc, by rw [h1]; exact hlog, ?_⟩
  rw [hrel, c_str_of_nul_free]
  rw [String.data_append, List.mem_append]
  rintro (h | h)
  · revert h
    decide
  · exact env.get_app_version.nul_free h

/-- C6: destroying a gateway after any sequence of `init()` calls (none, one,
several) calls `sentry_close` exactly once if one of the `sentry_init` calls
returned 0 and not at all otherwise; each `init()` returns normally with one
`sentry_init` call made, and `m_init` is true at destruction exactly when one
of the return codes was 0, so a start that failed leaves a new gateway
uninitialized. -/
theorem destructor_closes_once (bld : Build) (envs : List Env) (w : World) :
    (init_codes w (init_all bld envs Sentry.new w).2).length = envs.length ∧
    (init_all bld envs Sentry.new w).1.m_init =
      (init_codes w (init_all bld envs Sentry.new w).2).any (fun rc => rc == 0) ∧
    (Sentry.destructor (init_all bld envs Sentry.new w).1
        (init_all bld envs Sentry.new w).2).client.close_calls =
      w.client.close_calls +
        (if (init_codes w (init_all bld envs Sentry.new w).2).any (fun rc => rc == 0)
          then 1 else 0) := by
  obtain ⟨calls, c1, c2, c3, c4⟩ := init_all_spec bld envs Sentry.new w
  have hcodes : init_codes w (init_all bld envs Sentry.new w).2 = calls.map Prod.snd := by
    simp [init_codes, c1]
  rw [hcodes, any_code_zero]
  have hm : (init_all bld envs Sentry.new w).1.m_init = calls.any (fun c => c.2 == 0) := by
    rw [c3]
    simp [Sentry.new]
  refine ⟨by simp [c2], hm, ?_⟩
  unfold Sentry.destructor
  rw [hm]
  cases calls.any (fun c => c.2 == 0)
  · simp [c4]
  · simp [sentry_close, c4]

/-- C7, as stated, fails for an identifier with a NUL inside: after
`setUserID("a")` and `setUserID(nulID)`, where `nulID` is `x`, NUL, `y`, the
field `id` of the active user is `x`, not `nulID`. -/
theorem setUserID_not_verbatim :
    (Sentry.setUserID nulID (Sentry.setUserID "a" reportsOnlyWorld)).client.user =
      .object [("id", .string "x")] ∧
    ¬ ((Sentry.setUserID nulID (Sentry.setUserID "a" reportsOnlyWorld)).client.user =
      .object [("id", .string nulID)]) := by
  have h : (Sentry.setUserID nulID (Sentry.setUserID "a" reportsOnlyWorld)).client.user =
      .object [("id", .string "x")] := by
    have hx : c_str nulID = "x" := by decide
    show sentry_value_t.object [("id", .string (c_str nulID))] = _
    rw [hx]
  refine ⟨h, ?_⟩
  rw [h]
  intro hc
  injection hc with hc
  injection hc with hc _
  injection hc with _ hc
  injection hc with hc
  revert hc
  decide

/-- C7, amended: `setUserID(a)` followed by `setUserID(b)` leaves as active
user an object whose only field is `id`, holding the C string of `b`: `b` up
to its first NUL; the process state equals that of `setUserID(b)` alone, so
nothing of `a` is retained; and for an identifier `c` without NUL the field
is `c` verbatim. -/
theorem setUserID_twice (a b : String) (c : c_string) (w : World) :
    (Sentry.setUserID b (Sentry.setUserID a w)).client.user =
      .object [("id", .string (c_str b))] ∧
    Sentry.setUserID b (Sentry.setUserID a w) = Sentry.setUserID b w ∧
    (Sentry.setUserID c.chars (Sentry.setUserID a w)).client.user =
      .object [("id", .string c.chars)] := by
  refine ⟨rfl, rfl, ?_⟩
  show sentry_value_t.object [("id", .string (c_str c.chars))] = _
  rw [c_str_of_nul_free _ c.nul_free]

/-- C10: after `init()` returns, whatever `sentry_init` returned, `m_dbdir`
is the directory that `getFirstOrCreateDefault` resolved for `crashdb`, and
the database path of the options handed to `sentry_init` was read from that
same string; `areThereCrashesToReport()` on the state after `init()` then
inspects that directory; and there is a run where `sentry_init` fails, the
gateway stays uninitialized, and the query returns true. -/
theorem init_stores_dbdir (bld : Build) (env : Env) (self : Sentry) (w : World) :
    (∃ (o : sentry_options_t) (rc : Int),
      (Sentry.init bld env self w).2.client.init_calls = w.client.init_calls ++ [(o, rc)] ∧
      (Sentry.init bld env self w).2.m_dbdir = resolved_dir env w.fs ∧
      o.database_path = some
        (if bld.LAF_WINDOWS then
          .wide (wc_str (env.base.from_utf8 (Sentry.init bld env self w).2.m_dbdir))
         else .narrow (c_str (Sentry.init bld env self w).2.m_dbdir))) ∧
    (Sentry.areThereCrashesToReport env.base (Sentry.init bld env self w).2).1 =
      (!(resolved_dir env w.fs).isEmpty &&
        ((Sentry.init bld env self w).2.fs.is_file
            (env.base.join_path (resolved_dir env w.fs) "last_crash") ||
          (((Sentry.init bld env self w).2.fs.list_files
              (env.base.join_path (resolved_dir env w.fs) "completed")).any
              (fun f => env.base.get_file_extension f == "dmp") ||
            ((Sentry.init bld env self w).2.fs.list_files
              (env.base.join_path (resolved_dir env w.fs) "reports")).any
              (fun f => env.base.get_file_extension f == "dmp")))) ∧
    (∃ (o : sentry_options_t) (rc : Int),
      (Sentry.init exampleBuild failingEnv Sentry.new unsetDirWorld).2.client.init_calls =
        [(o, rc)] ∧
      rc ≠ 0 ∧
      (Sentry.init exampleBuild failingEnv Sentry.new unsetDirWorld).1.m_init = false ∧
      (Sentry.init exampleBuild failingEnv Sentry.new unsetDirWorld).2.m_dbdir = "/db" ∧
      (Sentry.areThereCrashesToReport failingEnv.base
        (Sentry.init exampleBuild failingEnv Sentry.new unsetDirWorld).2).1 = true) := by
  obtain ⟨o, rc, w1, h1, hlog, -, -, hdb, hdir, -⟩ := init_spec bld env self w
  refine ⟨⟨o, rc, ?_, ?_, ?_⟩, ?_, ?_⟩
  · rw [h1]; exact hlog
  · rw [h1]; exact hdir
  · rw [h1]
    show o.database_path = some (if bld.LAF_WINDOWS then
      .wide (wc_str (env.base.from_utf8 w1.m_dbdir)) else .narrow (c_str w1.m_dbdir))
    rw [hdir]; exact hdb
  · rw [areThereCrashesToReport_val]
    rw [h1]
    show (!w1.m_dbdir.isEmpty && _) = _
    rw [hdir]
  · exact ⟨_, 1, rfl, by decide, rfl, rfl, by decide⟩

end app
